import Mathlib

/-!
Verification development for the IntegrityPlay repository: the append-only
tamper-evident evidence chain, the detection engine, and the frontend
alert-handling components (AlertsExplorer, EventTimelineChart,
AlertDetailTabs, the api/mock-data module).
-/

namespace IntegrityPlay

namespace Chain

/-- Modelled from the spec: the cryptographic hash underlying
`fingerprint = hash(payload)` (SHA-256 in the repository documentation; the
hashing code itself is not under src). It is modelled by a base-257 code over
byte payloads, which is injective on equal-length byte strings, the property
collision resistance provides for tamper evidence. Each byte contributes a
nonzero digit. -/
def hashByte (b : Nat) : Nat := b % 256 + 1

/-- Modelled from the spec: fold of `hashByte` digits in base 257, starting
from an accumulator `h`. -/
def hashAux (h : Nat) (l : List Nat) : Nat :=
  l.foldl (fun acc b => acc * 257 + hashByte b) h

/-- Modelled from the spec: the fingerprint of a serialized payload. -/
def hashPayload (l : List Nat) : Nat := hashAux 0 l

/-- Modelled from the spec, section 3: an EvidenceRecord with `seq`,
`payload` (deterministic serialization bytes), `fingerprint`,
`prev_fingerprint` and optional `anchor_proof`. -/
structure EvidenceRecord where
  seq : Nat
  payload : List Nat
  fingerprint : Nat
  prev_fingerprint : Nat
  anchor_proof : Option Nat
deriving DecidableEq

/-- Modelled from the spec: the well-known genesis value the first record
links to. -/
def genesisFingerprint : Nat := 0

/-- Modelled from the spec glossary: the chain head is the most recently
appended evidence record fingerprint, or the genesis value for an empty
chain. -/
def chainHead (chain : List EvidenceRecord) : Nat :=
  match chain.getLast? with
  | some r => r.fingerprint
  | none => genesisFingerprint

/-- Modelled from the spec, section 4.6: appending an evidence record whose
`fingerprint` is the hash of its payload and whose `prev_fingerprint` equals
the previous record fingerprint (genesis value for the first record). -/
def appendRecord (chain : List EvidenceRecord) (payload : List Nat) :
    List EvidenceRecord :=
  chain ++ [{ seq := chain.length
              payload := payload
              fingerprint := hashPayload payload
              prev_fingerprint := chainHead chain
              anchor_proof := none }]

/-- Checks, starting from a given previous fingerprint, that every record
recomputes its fingerprint from its stored payload and that every
`prev_fingerprint` link matches. -/
def chainLinksFrom (prev : Nat) : List EvidenceRecord → Bool
  | [] => true
  | r :: rest =>
    decide (hashPayload r.payload = r.fingerprint) &&
      decide (r.prev_fingerprint = prev) && chainLinksFrom r.fingerprint rest

/-- Well-formedness of a whole chain: all fingerprints and links check out
starting from the genesis value. -/
def chainWF (chain : List EvidenceRecord) : Bool :=
  chainLinksFrom genesisFingerprint chain

/-- All bytes of a payload are actual bytes. -/
def validPayload (l : List Nat) : Bool := l.all (fun b => decide (b < 256))

/-- All payloads of a chain consist of actual bytes. -/
def validChain (chain : List EvidenceRecord) : Bool :=
  chain.all (fun r => validPayload r.payload)

/-- Modelled from the spec, section 6: the verification interface result,
`verified : bool` with an optional `reason` string. -/
structure VerifyOutcome where
  verified : Bool
  reason : Option String
deriving DecidableEq

/-- Modelled from the spec, section 4.6: walking a chain suffix from a given
previous fingerprint, recomputing each fingerprint from the stored payload
(failure reason `fingerprint mismatch`) and confirming each
`prev_fingerprint` link (failure reason `broken prev_fingerprint link`). -/
def verifyFrom (prev : Nat) : List EvidenceRecord → VerifyOutcome
  | [] => { verified := true, reason := none }
  | r :: rest =>
    if hashPayload r.payload ≠ r.fingerprint then
      { verified := false, reason := some "fingerprint mismatch" }
    else if r.prev_fingerprint ≠ prev then
      { verified := false, reason := some "broken prev_fingerprint link" }
    else verifyFrom r.fingerprint rest

/-- Modelled from the spec: `verify(record, chain)` verifies the chain prefix
up to and including the record at index `n`, starting from the genesis
value. -/
def verifyChain (chain : List EvidenceRecord) (n : Nat) : VerifyOutcome :=
  verifyFrom genesisFingerprint (chain.take (n + 1))

/-- Alter one byte of the stored payload of the record at index `k`: position
`i` of its payload is overwritten with byte `b`. Records before and after
index `k` are untouched. -/
def tamperChain : List EvidenceRecord → Nat → Nat → Nat → List EvidenceRecord
  | [], _, _, _ => []
  | r :: rest, 0, i, b => { r with payload := r.payload.set i b } :: rest
  | r :: rest, k + 1, i, b => r :: tamperChain rest k i b

end Chain

namespace Engine

/-- Modelled from the spec, section 3: event types. -/
inductive EventType where
  | order_new
  | order_cancel
  | trade
  | quote
deriving DecidableEq

/-- Modelled from the spec, section 3: order side. -/
inductive Side where
  | buy
  | sell
deriving DecidableEq

/-- Modelled from the spec, section 3: an ingested Event. -/
structure Event where
  event_id : Nat
  timestamp : Nat
  type : EventType
  account_id : Nat
  counter_account_id : Option Nat
  instrument_id : Nat
  price : ℚ
  quantity : ℚ
  side : Side
deriving DecidableEq

/-- Modelled from the spec, sections 6 and 9: engine configuration supplied
by the orchestration entry point (window size W and the layering rule
threshold are the parts this development needs). -/
structure Config where
  windowW : Nat
  layeringThreshold : ℚ
deriving DecidableEq

/-- Modelled from the spec, section 3: per-account window aggregates, the
counts the layering rule consumes. -/
structure AccountWindowState where
  ordersPlaced : Nat
  ordersCancelled : Nat
  buyOrders : Nat
  sellOrders : Nat
deriving DecidableEq

/-- The empty window aggregate. -/
def emptyWindowState : AccountWindowState :=
  { ordersPlaced := 0, ordersCancelled := 0, buyOrders := 0, sellOrders := 0 }

/-- Modelled from the spec, section 3 invariant: an event timestamp counts
iff it lies within the trailing window of duration W ending at `now`. -/
def inWindow (cfg : Config) (now t : Nat) : Bool :=
  decide (now - cfg.windowW ≤ t) && decide (t ≤ now)

/-- Fold one event of the given account into its window aggregate. -/
def applyEventToState (s : AccountWindowState) (e : Event) :
    AccountWindowState :=
  match e.type with
  | EventType.order_new =>
    { s with
      ordersPlaced := s.ordersPlaced + 1
      buyOrders := s.buyOrders + (match e.side with | Side.buy => 1 | Side.sell => 0)
      sellOrders := s.sellOrders + (match e.side with | Side.buy => 0 | Side.sell => 1) }
  | EventType.order_cancel => { s with ordersCancelled := s.ordersCancelled + 1 }
  | EventType.trade => s
  | EventType.quote => s

/-- Modelled from the spec, section 4.2: the window aggregate for one account
at instant `now` reflects exactly the ingested events of that account whose
timestamp lies within the trailing window (lazy expiry on read). -/
def accountWindowState (cfg : Config) (events : List Event) (now acct : Nat) :
    AccountWindowState :=
  (events.filter (fun e => (e.account_id == acct) && inWindow cfg now e.timestamp)).foldl
    applyEventToState emptyWindowState

/-- Modelled from the spec, section 3: a RuleSignal. -/
structure RuleSignal where
  rule_name : String
  score : ℚ
  accounts : List Nat
  rationale : String
deriving DecidableEq

/-- The cancel-to-order ratio of a window aggregate. -/
def cancelToOrderRatio (s : AccountWindowState) : ℚ :=
  (s.ordersCancelled : ℚ) / (s.ordersPlaced : ℚ)

/-- Modelled from the spec, section 4.3 layering rule: asymmetric one-sided
order placement, all orders on a single side. -/
def oneSidedB (s : AccountWindowState) : Bool :=
  (decide (s.buyOrders = 0) && decide (0 < s.sellOrders)) ||
    (decide (s.sellOrders = 0) && decide (0 < s.buyOrders))

/-- Modelled from the spec, section 4.4: the layering rule signals an account
whose cancel-to-order ratio is at or above the configured threshold
(inclusive) combined with asymmetric one-sided order placement; the score is
the ratio capped at 1. -/
def layeringRule (cfg : Config) (s : AccountWindowState) (acct : Nat) :
    Option RuleSignal :=
  if decide (0 < s.ordersPlaced) &&
      decide (cfg.layeringThreshold ≤ cancelToOrderRatio s) && oneSidedB s then
    some { rule_name := "layering"
           score := min 1 (cancelToOrderRatio s)
           accounts := [acct]
           rationale := "cancel-to-order ratio at or above threshold with one-sided order placement" }
  else none

/-- Modelled from the spec, section 3: the engine Alert record with unioned
rule names and accounts, score, creation time, anchoring flag and evidence
fingerprint. -/
structure Alert where
  alert_id : Nat
  rule_names : List String
  score : ℚ
  accounts : List Nat
  created_at : Nat
  anchored : Bool
  evidence_fingerprint : Nat
deriving DecidableEq

/-- Modelled from the spec, section 5: the engine state of one detection
session, sequentially dependent on prior state: configuration, the ingested
event log, the seen event ids (idempotence), the emitted alerts and the next
alert id. -/
structure EngineState where
  cfg : Config
  events : List Event
  seenIds : List Nat
  alerts : List Alert
  nextAlertId : Nat
deriving DecidableEq

/-- A fresh engine instance for a configuration. -/
def freshEngine (cfg : Config) : EngineState :=
  { cfg := cfg, events := [], seenIds := [], alerts := [], nextAlertId := 0 }

/-- Modelled from the spec, section 4.5: turning a rule signal into an Alert
(the deterministic serialization of the alert payload is modelled by its
account list, whose hash gives the evidence fingerprint). -/
def signalToAlert (st : EngineState) (sig : RuleSignal) (now : Nat) : Alert :=
  { alert_id := st.nextAlertId
    rule_names := [sig.rule_name]
    score := sig.score
    accounts := sig.accounts
    created_at := now
    anchored := false
    evidence_fingerprint := Chain.hashPayload sig.accounts }

/-- Modelled from the spec, sections 4 and 5: processing one event in the
single logical order: ignore an already-seen event id (idempotence), append
the event to the session log, evaluate the layering rule on the window
aggregate of the event account at the event timestamp, and emit an alert for
a produced signal. -/
def stepEngine (st : EngineState) (e : Event) : EngineState :=
  if st.seenIds.contains e.event_id then st
  else
    let events := st.events ++ [e]
    let ws := accountWindowState st.cfg events e.timestamp e.account_id
    match layeringRule st.cfg ws e.account_id with
    | some sig =>
      { st with
        events := events
        seenIds := st.seenIds ++ [e.event_id]
        alerts := st.alerts ++ [signalToAlert st sig e.timestamp]
        nextAlertId := st.nextAlertId + 1 }
    | none =>
      { st with
        events := events
        seenIds := st.seenIds ++ [e.event_id] }

/-- Modelled from the spec, section 5: a detection session processes its
event sequence as a sequential fold. -/
def runEngine (st : EngineState) (es : List Event) : EngineState :=
  es.foldl stepEngine st

end Engine

namespace Frontend

/-- The Alert interface of src/frontend/lib/api.ts. The `score` field is
declared `number` there, but the components guard against null and undefined
runtime values, so it is modelled as an Option; `created_at` is an ISO date
string, modelled by its epoch milliseconds, the key the components sort by. -/
structure Alert where
  alert_id : String
  rule_name : String
  score : Option ℚ
  severity : String
  anchored : Bool
  created_at : Nat
  evidence_path : Option String
  narrative : Option String
deriving DecidableEq

/-- The field names declared by the Alert interface of
src/frontend/lib/api.ts, in declaration order. -/
def alertFieldNames : List String :=
  ["alert_id", "rule_name", "score", "severity", "anchored", "created_at",
    "evidence_path", "narrative"]

/-- The descending by `created_at` sort the AlertsExplorer component applies
to its merged and filtered lists. -/
def sortByCreatedDesc (l : List Alert) : List Alert :=
  l.mergeSort (fun a b => decide (b.created_at ≤ a.created_at))

/-- The realtime update of AlertsExplorer: an incoming alert replaces the
entry with its alert id when present and is prepended otherwise, and the
list is truncated to the latest 200. -/
def applyRealtime (prev : List Alert) (a : Alert) : List Alert :=
  (if prev.any (fun x => x.alert_id == a.alert_id) then
      prev.map (fun x => if x.alert_id == a.alert_id then a else x)
    else a :: prev).take 200

/-- The object spread of the AlertsExplorer refetch merge: required fields
come from the fresher alert, optional fields keep the previous value when the
fresher alert lacks them. -/
def spreadMerge (x newer : Alert) : Alert :=
  { alert_id := newer.alert_id
    rule_name := newer.rule_name
    score := newer.score
    severity := newer.severity
    anchored := newer.anchored
    created_at := newer.created_at
    evidence_path := newer.evidence_path.or x.evidence_path
    narrative := newer.narrative.or x.narrative }

/-- The first stage of the AlertsExplorer refetch merge: existing rows are
updated with fresher data from the incoming list. -/
def updatedRows (prev incoming : List Alert) : List Alert :=
  prev.map (fun x =>
    match incoming.find? (fun i => i.alert_id == x.alert_id) with
    | some newer => spreadMerge x newer
    | none => x)

/-- The second stage of the AlertsExplorer refetch merge: incoming rows whose
alert id is not already present. -/
def additionRows (prev incoming : List Alert) : List Alert :=
  incoming.filter (fun i =>
    !(((updatedRows prev incoming).map (fun x => x.alert_id)).contains i.alert_id))

/-- The refetch merge of AlertsExplorer: existing rows are updated with
fresher data, new rows from the incoming list are added, the result is
sorted most recent first and capped at 200 entries. -/
def mergeRefetch (prev incoming : List Alert) : List Alert :=
  (sortByCreatedDesc (additionRows prev incoming ++ updatedRows prev incoming)).take 200

/-- The substring test of the JavaScript String includes method: an empty
needle always occurs; a nonempty needle occurs iff splitting on it yields
more than one part. -/
def strIncludes (s sub : String) : Bool :=
  sub.isEmpty || decide (1 < (s.splitOn sub).length)

/-- The filter pipeline of AlertsExplorer: anchored-only filter, minimum
score filter (a null score is excluded), alert id search, then descending
sort by creation time. -/
def filteredAlerts (alerts : List Alert) (query : String) (anchoredOnly : Bool)
    (minScore : ℚ) : List Alert :=
  let q := query.trim.toLower
  sortByCreatedDesc
    (((alerts.filter (fun a => if anchoredOnly then a.anchored else true)).filter
        (fun a => match a.score with
          | none => false
          | some s => decide (minScore ≤ s))).filter
      (fun a => if q.isEmpty then true else strIncludes a.alert_id.toLower q))

/-- The data preparation of EventTimelineChart: alerts with a null or
undefined score are filtered out before charting. -/
def timelineValidAlerts (alerts : List Alert) : List Alert :=
  alerts.filter (fun a => a.score.isSome)

/-- The MockAlert interface of the mock data module in
src/frontend/lib/api.ts. `created_at` and `narrative` are strings produced by
date and number formatting, modelled as opaque strings. -/
structure MockAlert where
  alert_id : String
  rule_name : String
  score : ℚ
  severity : String
  anchored : Bool
  created_at : String
  narrative : Option String
  evidence_path : Option String
deriving DecidableEq

/-- The rule name pool of the mock data module. -/
def ruleNames : List String :=
  ["layering", "wash_trade", "quote_stuffing", "spoofing", "pump_and_dump",
    "front_running", "insider_trading"]

/-- The severity classification of generateMockAlert: high at or above 0.7,
medium at or above 0.4, low below. -/
def severityOfScore (score : ℚ) : String :=
  if (7 : ℚ) / 10 ≤ score then "high"
  else if (4 : ℚ) / 10 ≤ score then "medium"
  else "low"

/-- generateMockAlert of src/frontend/lib/api.ts. The Math.random draws are
passed as inputs: `idSuffix` and `evidenceSuffix` are the random id suffixes,
`ruleIdx` the floored rule index draw, `scoreDraw` the score draw,
`anchorDraw` the anchoring draw; the formatted creation date and confidence
strings are passed as opaque inputs. -/
def generateMockAlert (idSuffix evidenceSuffix : String) (ruleIdx : Nat)
    (scoreDraw anchorDraw : ℚ) (createdAtStr confidenceStr : String) :
    MockAlert :=
  let ruleName := ruleNames.getD ruleIdx ""
  { alert_id := "ALERT-" ++ idSuffix
    rule_name := ruleName
    score := scoreDraw
    severity := severityOfScore scoreDraw
    anchored := decide ((1 : ℚ) / 2 < anchorDraw)
    created_at := createdAtStr
    narrative := some ("Detected " ++ ruleName.replace "_" " " ++
      " pattern with confidence " ++ confidenceStr ++
      "%. Multiple suspicious transactions identified across related accounts.")
    evidence_path := some ("/evidence/ALERT-" ++ evidenceSuffix ++ ".json") }

/-- The paged result shape of getDemoAlerts. -/
structure PagedAlerts where
  total : Nat
  items : List MockAlert
deriving DecidableEq

/-- getDemoAlerts of src/frontend/lib/api.ts, over the demo alert store (the
lazy initializeDemoData call makes the store nonempty before slicing; the
post-initialization store is the `demoAlerts` argument): total is the store
length and items is the slice from (page - 1) * pageSize of length at most
pageSize. -/
def getDemoAlerts (demoAlerts : List MockAlert) (page pageSize : Nat) :
    PagedAlerts :=
  let start := (page - 1) * pageSize
  { total := demoAlerts.length
    items := (demoAlerts.drop start).take pageSize }

/-- The verifyResult state of the AlertDetailTabs verify button. -/
structure VerifyResultState where
  verified : Bool
  reason : Option String
deriving DecidableEq

/-- The two outcomes of the verify_chain request in AlertDetailTabs: a
successful HTTP response carrying optional `verified` and `reason` body
fields, or a thrown error carrying the optional response reason, response
detail and error message. -/
inductive VerifyApiOutcome where
  | success (dataVerified : Option Bool) (dataReason : Option String)
  | failure (respReason respDetail errMessage : Option String)
deriving DecidableEq

/-- The verify button handler of AlertDetailTabs: on a successful response it
stores only the coerced `verified` boolean; on a thrown error it stores
`verified := false` with the first available reason, defaulting to
`Verification failed`. -/
def handleVerifyChainResponse : VerifyApiOutcome → VerifyResultState
  | VerifyApiOutcome.success dataVerified _ =>
    { verified := dataVerified.getD false, reason := none }
  | VerifyApiOutcome.failure respReason respDetail errMessage =>
    { verified := false
      reason := some (((respReason.or respDetail).or errMessage).getD "Verification failed") }

end Frontend

/-! Theorems about the evidence chain. -/

theorem Chain.hashAux_cons (h b : Nat) (t : List Nat) :
    Chain.hashAux h (b :: t) = Chain.hashAux (h * 257 + Chain.hashByte b) t := rfl

theorem Chain.hashAux_shift (l : List Nat) :
    ∀ h : Nat, Chain.hashAux h l = h * 257 ^ l.length + Chain.hashAux 0 l := by
  induction l with
  | nil => intro h; simp [Chain.hashAux]
  | cons b t ih =>
    intro h
    rw [Chain.hashAux_cons, ih, Chain.hashAux_cons 0, ih (0 * 257 + Chain.hashByte b)]
    simp only [List.length_cons]
    ring

theorem Chain.hashPayload_cons (b : Nat) (t : List Nat) :
    Chain.hashPayload (b :: t) =
      Chain.hashByte b * 257 ^ t.length + Chain.hashPayload t := by
  show Chain.hashAux 0 (b :: t) = _
  rw [Chain.hashAux_cons]
  simpa using Chain.hashAux_shift t (0 * 257 + Chain.hashByte b)

theorem Chain.hashByte_le (b : Nat) : Chain.hashByte b ≤ 256 := by
  have hlt : b % 256 < 256 := Nat.mod_lt _ (by norm_num)
  simp only [Chain.hashByte]
  omega

theorem Chain.hashPayload_lt (l : List Nat) :
    Chain.hashPayload l < 257 ^ l.length := by
  induction l with
  | nil => simp [Chain.hashPayload, Chain.hashAux]
  | cons b t ih =>
    rw [Chain.hashPayload_cons, List.length_cons, pow_succ]
    have hb : Chain.hashByte b * 257 ^ t.length ≤ 256 * 257 ^ t.length :=
      Nat.mul_le_mul_right _ (Chain.hashByte_le b)
    omega

theorem Chain.hashPayload_inj : ∀ (l l' : List Nat), l.length = l'.length →
    (∀ b ∈ l, b < 256) → (∀ b ∈ l', b < 256) →
    Chain.hashPayload l = Chain.hashPayload l' → l = l'
  | [], [], _, _, _, _ => rfl
  | [], _ :: _, hlen, _, _, _ => by simp at hlen
  | _ :: _, [], hlen, _, _, _ => by simp at hlen
  | b :: t, b' :: t', hlen, hv, hv', heq => by
    have hlt : t.length = t'.length := by simpa using hlen
    rw [Chain.hashPayload_cons, Chain.hashPayload_cons, ← hlt] at heq
    have h1 : Chain.hashPayload t < 257 ^ t.length := Chain.hashPayload_lt t
    have h2 : Chain.hashPayload t' < 257 ^ t.length := by
      rw [hlt]; exact Chain.hashPayload_lt t'
    have hM : 0 < 257 ^ t.length := pow_pos (by norm_num) _
    have hr : Chain.hashPayload t = Chain.hashPayload t' := by
      have heq' : 257 ^ t.length * Chain.hashByte b + Chain.hashPayload t =
          257 ^ t.length * Chain.hashByte b' + Chain.hashPayload t' := by
        rw [Nat.mul_comm (257 ^ t.length) (Chain.hashByte b),
          Nat.mul_comm (257 ^ t.length) (Chain.hashByte b')]
        exact heq
      have hmod := congrArg (fun x => x % 257 ^ t.length) heq'
      simpa [Nat.mul_add_mod, Nat.mod_eq_of_lt h1, Nat.mod_eq_of_lt h2] using hmod
    have hd : Chain.hashByte b = Chain.hashByte b' := by
      have hmm : Chain.hashByte b * 257 ^ t.length =
          Chain.hashByte b' * 257 ^ t.length := by omega
      exact Nat.eq_of_mul_eq_mul_right hM hmm
    have hb : b = b' := by
      have hb1 : b < 256 := hv b (List.mem_cons_self b t)
      have hb2 : b' < 256 := hv' b' (List.mem_cons_self b' t')
      simpa [Chain.hashByte, Nat.mod_eq_of_lt hb1, Nat.mod_eq_of_lt hb2] using hd
    have ht : t = t' :=
      Chain.hashPayload_inj t t' hlt
        (fun x hx => hv x (List.mem_cons_of_mem b hx))
        (fun x hx => hv' x (List.mem_cons_of_mem b' hx)) hr
    rw [hb, ht]

theorem Chain.verifyFrom_verified_eq (l : List Chain.EvidenceRecord) :
    ∀ prev : Nat, (Chain.verifyFrom prev l).verified = Chain.chainLinksFrom prev l := by
  induction l with
  | nil => intro prev; rfl
  | cons r rest ih =>
    intro prev
    by_cases h1 : Chain.hashPayload r.payload = r.fingerprint
    · by_cases h2 : r.prev_fingerprint = prev
      · simp [Chain.verifyFrom, Chain.chainLinksFrom, h1, h2, ih]
      · simp [Chain.verifyFrom, Chain.chainLinksFrom, h1, h2]
    · simp [Chain.verifyFrom, Chain.chainLinksFrom, h1]

theorem Chain.tamperChain_fails :
    ∀ (l : List Chain.EvidenceRecord) (prev k i b : Nat)
      (r : Chain.EvidenceRecord) (old : Nat),
      Chain.chainLinksFrom prev l = true →
      Chain.validChain l = true →
      l[k]? = some r →
      r.payload[i]? = some old →
      b < 256 → b ≠ old →
      ∀ n, k ≤ n →
        Chain.verifyFrom prev ((Chain.tamperChain l k i b).take (n + 1)) =
          { verified := false, reason := some "fingerprint mismatch" } := by
  intro l
  induction l with
  | nil => intro prev k i b r old _ _ hk; simp at hk
  | cons r0 rest ih =>
    intro prev k i b r old hwf hvalid hk hi hb hne n hn
    have hwf' : Chain.hashPayload r0.payload = r0.fingerprint ∧
        r0.prev_fingerprint = prev ∧
        Chain.chainLinksFrom r0.fingerprint rest = true := by
      simpa [Chain.chainLinksFrom, Bool.and_eq_true, and_assoc] using hwf
    have hval' : Chain.validPayload r0.payload = true ∧
        Chain.validChain rest = true := by
      simpa [Chain.validChain, List.all_cons, Bool.and_eq_true] using hvalid
    cases k with
    | zero =>
      have hr : r0 = r := by simpa using hk
      subst hr
      have hilt : i < r0.payload.length := by
        by_contra hge
        rw [List.getElem?_eq_none (by omega)] at hi
        exact Option.noConfusion hi
      have hset_ne : r0.payload.set i b ≠ r0.payload := by
        intro hcontra
        have : (r0.payload.set i b)[i]? = r0.payload[i]? := by rw [hcontra]
        rw [List.getElem?_set_self hilt, hi] at this
        exact hne (Option.some.inj this)
      have hhash_ne :
          Chain.hashPayload (r0.payload.set i b) ≠ Chain.hashPayload r0.payload := by
        intro hcontra
        apply hset_ne
        apply Chain.hashPayload_inj _ _ (List.length_set r0.payload i b)
        · intro x hx
          rcases List.mem_or_eq_of_mem_set hx with hmem | rfl
          · have := hval'.1
            simp only [Chain.validPayload, List.all_eq_true, decide_eq_true_eq] at this
            exact this x hmem
          · exact hb
        · intro x hx
          have := hval'.1
          simp only [Chain.validPayload, List.all_eq_true, decide_eq_true_eq] at this
          exact this x hx
        · exact hcontra
      have hcond : Chain.hashPayload (r0.payload.set i b) ≠ r0.fingerprint := by
        rw [← hwf'.1]; exact hhash_ne
      show Chain.verifyFrom prev
          (({ r0 with payload := r0.payload.set i b } :: rest).take (n + 1)) = _
      rw [List.take_succ_cons]
      simp [Chain.verifyFrom, hcond]
    | succ k' =>
      have hk' : rest[k']? = some r := by simpa using hk
      cases n with
      | zero => omega
      | succ n' =>
        have hn' : k' ≤ n' := by omega
        have hc1 : ¬ (Chain.hashPayload r0.payload ≠ r0.fingerprint) := by
          rw [hwf'.1]; exact fun h => h rfl
        have hc2 : ¬ (r0.prev_fingerprint ≠ prev) := by
          rw [hwf'.2.1]; exact fun h => h rfl
        show Chain.verifyFrom prev
            ((r0 :: Chain.tamperChain rest k' i b).take (n' + 1 + 1)) = _
        rw [List.take_succ_cons]
        simp only [Chain.verifyFrom]
        rw [if_neg hc1, if_neg hc2]
        exact ih r0.fingerprint k' i b r old hwf'.2.2 hval'.2 hk' hi hb hne n' hn'

/-- C1: for every evidence chain and record index, `verify` succeeds iff no
stored payload and no prev_fingerprint link in the chain prefix up to that
record has been altered (the prefix still passes all fingerprint
recomputations and link checks); and altering one byte of any stored payload
of a well-formed chain makes `verify` fail with reason `fingerprint mismatch`
for that record and for every later record. -/
theorem C1_chain_tamper_evidence :
    (∀ (chain : List Chain.EvidenceRecord) (n : Nat),
      ((Chain.verifyChain chain n).verified = true ↔
        Chain.chainLinksFrom Chain.genesisFingerprint (chain.take (n + 1)) = true)) ∧
    (∀ (chain : List Chain.EvidenceRecord) (k i b : Nat)
        (r : Chain.EvidenceRecord) (old : Nat),
      Chain.chainWF chain = true →
      Chain.validChain chain = true →
      chain[k]? = some r →
      r.payload[i]? = some old →
      b < 256 → b ≠ old →
      ∀ n, k ≤ n →
        Chain.verifyChain (Chain.tamperChain chain k i b) n =
          { verified := false, reason := some "fingerprint mismatch" }) := by
  constructor
  · intro chain n
    rw [Chain.verifyChain, Chain.verifyFrom_verified_eq]
  · intro chain k i b r old hwf hvalid hk hi hb hne n hn
    exact Chain.tamperChain_fails chain Chain.genesisFingerprint k i b r old hwf hvalid
      hk hi hb hne n hn

/-- Witness for C1: a concrete two-record chain built by appendRecord, with
byte 1 of the first payload altered from 2 to 9, fails verification of both
records with reason `fingerprint mismatch`. -/
theorem C1_chain_tamper_evidence_witness :
    Chain.verifyChain
        (Chain.tamperChain
          (Chain.appendRecord (Chain.appendRecord [] [1, 2, 3]) [4, 5]) 0 1 9) 1 =
      { verified := false, reason := some "fingerprint mismatch" } :=
  C1_chain_tamper_evidence.2
    (Chain.appendRecord (Chain.appendRecord [] [1, 2, 3]) [4, 5]) 0 1 9
    { seq := 0, payload := [1, 2, 3], fingerprint := Chain.hashPayload [1, 2, 3],
      prev_fingerprint := Chain.genesisFingerprint, anchor_proof := none }
    2 (by decide) (by decide) (by decide) (by decide) (by decide) (by decide) 1
    (by decide)

theorem Chain.chainLinksFrom_get :
    ∀ (l : List Chain.EvidenceRecord) (prev : Nat),
      Chain.chainLinksFrom prev l = true →
      (∀ (n : Nat) (r : Chain.EvidenceRecord), l[n]? = some r →
        r.fingerprint = Chain.hashPayload r.payload) ∧
      (∀ r : Chain.EvidenceRecord, l[0]? = some r → r.prev_fingerprint = prev) ∧
      (∀ (n : Nat) (r r' : Chain.EvidenceRecord), l[n]? = some r' →
        l[n + 1]? = some r → r.prev_fingerprint = r'.fingerprint) := by
  intro l
  induction l with
  | nil =>
    intro prev _
    refine ⟨?_, ?_, ?_⟩ <;> intro n <;> simp at *
  | cons r0 rest ih =>
    intro prev hwf
    have hwf' : Chain.hashPayload r0.payload = r0.fingerprint ∧
        r0.prev_fingerprint = prev ∧
        Chain.chainLinksFrom r0.fingerprint rest = true := by
      simpa [Chain.chainLinksFrom, Bool.and_eq_true, and_assoc] using hwf
    obtain ⟨ihf, ihp, ihl⟩ := ih r0.fingerprint hwf'.2.2
    refine ⟨?_, ?_, ?_⟩
    · intro n r hr
      cases n with
      | zero =>
        have : r0 = r := by simpa using hr
        rw [← this, ← hwf'.1]
      | succ m => exact ihf m r (by simpa using hr)
    · intro r hr
      have : r0 = r := by simpa using hr
      rw [← this]
      exact hwf'.2.1
    · intro n r r' hr' hr
      cases n with
      | zero =>
        have h0 : r0 = r' := by simpa using hr'
        have h1 : rest[0]? = some r := by simpa using hr
        rw [← h0]
        exact ihp r h1
      | succ m =>
        exact ihl m r r' (by simpa using hr') (by simpa using hr)

theorem Chain.chainLinksFrom_append :
    ∀ (l : List Chain.EvidenceRecord) (prev : Nat) (r : Chain.EvidenceRecord),
      Chain.chainLinksFrom prev l = true →
      r.fingerprint = Chain.hashPayload r.payload →
      r.prev_fingerprint = (match l.getLast? with
        | some x => x.fingerprint
        | none => prev) →
      Chain.chainLinksFrom prev (l ++ [r]) = true := by
  intro l
  induction l with
  | nil =>
    intro prev r _ hfp hprev
    simp only [List.getLast?_nil] at hprev
    simp [Chain.chainLinksFrom, hfp, hprev]
  | cons x t ih =>
    intro prev r hwf hfp hprev
    have hwf' : Chain.hashPayload x.payload = x.fingerprint ∧
        x.prev_fingerprint = prev ∧
        Chain.chainLinksFrom x.fingerprint t = true := by
      simpa [Chain.chainLinksFrom, Bool.and_eq_true, and_assoc] using hwf
    have hrec : Chain.chainLinksFrom x.fingerprint (t ++ [r]) = true := by
      apply ih x.fingerprint r hwf'.2.2 hfp
      cases t with
      | nil => simpa using hprev
      | cons y t' => simpa [List.getLast?_cons_cons] using hprev
    simp [Chain.chainLinksFrom, hwf'.1, hwf'.2.1, hrec]

/-- C2: a well-formed evidence chain is singly linked: every record
fingerprint is the hash of its payload, the prev_fingerprint of the record at
index n equals the fingerprint of the record at index n - 1 for n at least 1,
the first record links to the well-known genesis value, and appendRecord
preserves chain well-formedness. -/
theorem C2_chain_append_only_invariant :
    (∀ (chain : List Chain.EvidenceRecord) (payload : List Nat),
      Chain.chainWF chain = true →
      Chain.chainWF (Chain.appendRecord chain payload) = true) ∧
    (∀ chain : List Chain.EvidenceRecord, Chain.chainWF chain = true →
      (∀ (n : Nat) (r r' : Chain.EvidenceRecord), 1 ≤ n → chain[n]? = some r →
        chain[n - 1]? = some r' → r.prev_fingerprint = r'.fingerprint) ∧
      (∀ (n : Nat) (r : Chain.EvidenceRecord), chain[n]? = some r →
        r.fingerprint = Chain.hashPayload r.payload) ∧
      (∀ r : Chain.EvidenceRecord, chain[0]? = some r →
        r.prev_fingerprint = Chain.genesisFingerprint)) := by
  constructor
  · intro chain payload hwf
    apply Chain.chainLinksFrom_append chain Chain.genesisFingerprint _ hwf rfl
    rfl
  · intro chain hwf
    obtain ⟨hf, hp, hl⟩ := Chain.chainLinksFrom_get chain Chain.genesisFingerprint hwf
    refine ⟨?_, hf, hp⟩
    intro n r r' hn hr hr'
    cases n with
    | zero => omega
    | succ m =>
      apply hl m r r' _ hr
      simpa using hr'

/-- Witness for C2: the concrete two-record chain built by appendRecord is
well-formed, and its second record links to the fingerprint of its first. -/
theorem C2_chain_append_only_invariant_witness :
    Chain.chainWF (Chain.appendRecord (Chain.appendRecord [] [1, 2, 3]) [4, 5]) = true ∧
      (Chain.appendRecord (Chain.appendRecord [] [1, 2, 3]) [4, 5])[1]? =
        some { seq := 1, payload := [4, 5], fingerprint := Chain.hashPayload [4, 5],
               prev_fingerprint := Chain.hashPayload [1, 2, 3], anchor_proof := none } :=
  ⟨C2_chain_append_only_invariant.1 (Chain.appendRecord [] [1, 2, 3]) [4, 5] (by decide),
    by decide⟩

/-! Theorems about the detection engine and the frontend components. -/

/-- C3: evaluating the AlertDetailTabs verify button handler on a successful
verify_chain response whose body is verified false with reason fingerprint
mismatch: the stored result is verified false with NO reason, so the explicit
failure reason returned by the verification interface is dropped on the
success path, contradicting the claim that a verification failure reason is
never swallowed on the way to the caller. -/
theorem C3_verify_reason_dropped :
    Frontend.handleVerifyChainResponse
        (Frontend.VerifyApiOutcome.success (some false) (some "fingerprint mismatch")) =
      { verified := false, reason := none } := rfl

/-- C4: detection output is a deterministic function of the input sequence:
two fresh engine instances fed the same event sequence emit identical alerts
(same accounts, scores and ordering, since the whole alert lists are
equal). -/
theorem C4_detection_determinism :
    ∀ (cfg : Engine.Config) (es : List Engine.Event)
      (s1 s2 : Engine.EngineState),
      s1 = Engine.freshEngine cfg → s2 = Engine.freshEngine cfg →
      (Engine.runEngine s1 es).alerts = (Engine.runEngine s2 es).alerts := by
  intro cfg es s1 s2 h1 h2
  rw [h1, h2]

/-- Witness for C4: two fresh engines on a concrete two-event sequence. -/
theorem C4_detection_determinism_witness :
    (Engine.runEngine
        (Engine.freshEngine { windowW := 300, layeringThreshold := 1 / 2 })
        [{ event_id := 1, timestamp := 10, type := Engine.EventType.order_new,
           account_id := 7, counter_account_id := none, instrument_id := 1,
           price := 100, quantity := 5, side := Engine.Side.buy },
         { event_id := 2, timestamp := 11, type := Engine.EventType.order_cancel,
           account_id := 7, counter_account_id := none, instrument_id := 1,
           price := 100, quantity := 5, side := Engine.Side.buy }]).alerts =
      (Engine.runEngine
        (Engine.freshEngine { windowW := 300, layeringThreshold := 1 / 2 })
        [{ event_id := 1, timestamp := 10, type := Engine.EventType.order_new,
           account_id := 7, counter_account_id := none, instrument_id := 1,
           price := 100, quantity := 5, side := Engine.Side.buy },
         { event_id := 2, timestamp := 11, type := Engine.EventType.order_cancel,
           account_id := 7, counter_account_id := none, instrument_id := 1,
           price := 100, quantity := 5, side := Engine.Side.buy }]).alerts :=
  C4_detection_determinism { windowW := 300, layeringThreshold := 1 / 2 }
    [{ event_id := 1, timestamp := 10, type := Engine.EventType.order_new,
       account_id := 7, counter_account_id := none, instrument_id := 1,
       price := 100, quantity := 5, side := Engine.Side.buy },
     { event_id := 2, timestamp := 11, type := Engine.EventType.order_cancel,
       account_id := 7, counter_account_id := none, instrument_id := 1,
       price := 100, quantity := 5, side := Engine.Side.buy }]
    (Engine.freshEngine { windowW := 300, layeringThreshold := 1 / 2 })
    (Engine.freshEngine { windowW := 300, layeringThreshold := 1 / 2 }) rfl rfl

/-- C5: the layering threshold is inclusive: an account window state whose
cancel-to-order ratio equals the configured threshold exactly, with
one-sided order placement, produces a layering signal. -/
theorem C5_layering_threshold_inclusive :
    ∀ (cfg : Engine.Config) (s : Engine.AccountWindowState) (acct : Nat),
      0 < s.ordersPlaced →
      Engine.cancelToOrderRatio s = cfg.layeringThreshold →
      Engine.oneSidedB s = true →
      (Engine.layeringRule cfg s acct).isSome = true := by
  intro cfg s acct hp hr ho
  simp [Engine.layeringRule, hp, ho, hr, le_refl]

/-- Witness for C5: two orders placed, one cancelled, all orders on the sell
side, threshold exactly one half. -/
theorem C5_layering_threshold_inclusive_witness :
    (Engine.layeringRule { windowW := 300, layeringThreshold := 1 / 2 }
        { ordersPlaced := 2, ordersCancelled := 1, buyOrders := 0, sellOrders := 2 }
        7).isSome = true :=
  C5_layering_threshold_inclusive { windowW := 300, layeringThreshold := 1 / 2 }
    { ordersPlaced := 2, ordersCancelled := 1, buyOrders := 0, sellOrders := 2 } 7
    (by decide) (by norm_num [Engine.cancelToOrderRatio]) (by decide)

/-- C6 counterexample: the Alert record of the code present (the Alert
interface of src/frontend/lib/api.ts) does not carry rule_names, accounts or
evidence_fingerprint fields, refuting the claimed field list. -/
theorem C6_alert_fields_counterexample :
    ¬ ("rule_names" ∈ Frontend.alertFieldNames ∧
        "accounts" ∈ Frontend.alertFieldNames ∧
        "evidence_fingerprint" ∈ Frontend.alertFieldNames) := by
  decide

/-- C6 amended: every Alert record of the frontend interface carries exactly
the fields alert_id, rule_name (a single rule name), score, severity,
anchored, created_at and the optional evidence_path and narrative; it carries
no rule_names, accounts or evidence_fingerprint field. -/
theorem C6_alert_fields :
    Frontend.alertFieldNames =
      ["alert_id", "rule_name", "score", "severity", "anchored", "created_at",
        "evidence_path", "narrative"] ∧
    ("rule_names" ∉ Frontend.alertFieldNames ∧
      "accounts" ∉ Frontend.alertFieldNames ∧
      "evidence_fingerprint" ∉ Frontend.alertFieldNames) ∧
    (∀ a : Frontend.Alert,
      a = { alert_id := a.alert_id, rule_name := a.rule_name, score := a.score,
            severity := a.severity, anchored := a.anchored,
            created_at := a.created_at, evidence_path := a.evidence_path,
            narrative := a.narrative }) :=
  ⟨rfl, by decide, fun a => rfl⟩

/-- C7: every alert produced by generateMockAlert has its score equal to the
Math.random draw, hence within the closed interval from 0 to 1; and every
rule signal produced by the layering rule has score within the same
interval. -/
theorem C7_score_range :
    (∀ (idSuffix evidenceSuffix : String) (ruleIdx : Nat)
        (scoreDraw anchorDraw : ℚ) (createdAtStr confidenceStr : String),
      0 ≤ scoreDraw → scoreDraw < 1 →
      0 ≤ (Frontend.generateMockAlert idSuffix evidenceSuffix ruleIdx scoreDraw
            anchorDraw createdAtStr confidenceStr).score ∧
        (Frontend.generateMockAlert idSuffix evidenceSuffix ruleIdx scoreDraw
            anchorDraw createdAtStr confidenceStr).score ≤ 1) ∧
    (∀ (cfg : Engine.Config) (s : Engine.AccountWindowState) (acct : Nat)
        (sig : Engine.RuleSignal),
      Engine.layeringRule cfg s acct = some sig →
      0 ≤ sig.score ∧ sig.score ≤ 1) := by
  constructor
  · intro idSuffix evidenceSuffix ruleIdx scoreDraw anchorDraw createdAtStr
      confidenceStr h0 h1
    exact ⟨h0, le_of_lt h1⟩
  · intro cfg s acct sig hsig
    have hratio : 0 ≤ Engine.cancelToOrderRatio s := by
      unfold Engine.cancelToOrderRatio
      positivity
    simp only [Engine.layeringRule] at hsig
    split at hsig
    · cases hsig
      exact ⟨le_min (by norm_num) hratio, min_le_left _ _⟩
    · exact Option.noConfusion hsig

/-- Witness for C7: a concrete mock alert with score draw one half. -/
theorem C7_score_range_witness :
    0 ≤ (Frontend.generateMockAlert "7DF4A806" "AB12CD34" 0 (1 / 2) (1 / 4)
          "2025-01-01T00:00:00.000Z" "50.0").score ∧
      (Frontend.generateMockAlert "7DF4A806" "AB12CD34" 0 (1 / 2) (1 / 4)
          "2025-01-01T00:00:00.000Z" "50.0").score ≤ 1 :=
  C7_score_range.1 "7DF4A806" "AB12CD34" 0 (1 / 2) (1 / 4)
    "2025-01-01T00:00:00.000Z" "50.0" (by norm_num) (by norm_num)

theorem Frontend.replace_ids (prev : List Frontend.Alert) (a : Frontend.Alert) :
    (prev.map (fun x => if x.alert_id == a.alert_id then a else x)).map
        (fun x => x.alert_id) =
      prev.map (fun x => x.alert_id) := by
  rw [List.map_map]
  apply List.map_congr_left
  intro x hx
  by_cases h : (x.alert_id == a.alert_id) = true
  · simp only [Function.comp_apply, if_pos h]
    exact (eq_of_beq h).symm
  · simp only [Function.comp_apply, if_neg h]

theorem Frontend.updatedRows_ids (prev incoming : List Frontend.Alert) :
    (Frontend.updatedRows prev incoming).map (fun x => x.alert_id) =
      prev.map (fun x => x.alert_id) := by
  unfold Frontend.updatedRows
  rw [List.map_map]
  apply List.map_congr_left
  intro x hx
  simp only [Function.comp_apply]
  cases hfind : incoming.find? (fun i => i.alert_id == x.alert_id) with
  | none => rfl
  | some newer =>
    have hbeq : newer.alert_id = x.alert_id := by
      simpa using List.find?_some hfind
    simp [Frontend.spreadMerge, hbeq]

/-- C8: every AlertsExplorer state update keeps the alert list free of
duplicate alert ids and capped at 200 entries, given that the current list
(and, for a refetch merge, the incoming list) is itself free of duplicate
ids; and a realtime alert whose id is already present replaces the existing
entry, leaving the list length unchanged up to the cap, rather than being
appended. -/
theorem C8_explorer_merge_invariant :
    (∀ (prev : List Frontend.Alert) (a : Frontend.Alert),
      (prev.map (fun x => x.alert_id)).Nodup →
      ((Frontend.applyRealtime prev a).map (fun x => x.alert_id)).Nodup ∧
        (Frontend.applyRealtime prev a).length ≤ 200 ∧
        (prev.any (fun x => x.alert_id == a.alert_id) = true →
          (Frontend.applyRealtime prev a).length = min 200 prev.length)) ∧
    (∀ prev incoming : List Frontend.Alert,
      (prev.map (fun x => x.alert_id)).Nodup →
      (incoming.map (fun x => x.alert_id)).Nodup →
      ((Frontend.mergeRefetch prev incoming).map (fun x => x.alert_id)).Nodup ∧
        (Frontend.mergeRefetch prev incoming).length ≤ 200) := by
  constructor
  · intro prev a hnd
    unfold Frontend.applyRealtime
    by_cases hex : prev.any (fun x => x.alert_id == a.alert_id) = true
    · rw [if_pos hex]
      refine ⟨?_, ?_, ?_⟩
      · rw [List.map_take, Frontend.replace_ids prev a]
        exact List.Nodup.sublist (List.take_sublist _ _) hnd
      · rw [List.length_take]
        exact min_le_left _ _
      · intro _
        rw [List.length_take, List.length_map]
    · rw [if_neg hex]
      have hnotin : a.alert_id ∉ prev.map (fun x => x.alert_id) := by
        intro hmem
        obtain ⟨x, hxmem, hxeq⟩ := List.mem_map.mp hmem
        have hex' : prev.any (fun x => x.alert_id == a.alert_id) = false :=
          Bool.eq_false_iff.mpr hex
        rw [List.any_eq_false] at hex'
        exact hex' x hxmem (by rw [hxeq]; exact beq_self_eq_true _)
      refine ⟨?_, ?_, ?_⟩
      · rw [List.map_take]
        apply List.Nodup.sublist (List.take_sublist _ _)
        rw [List.map_cons]
        exact List.nodup_cons.mpr ⟨hnotin, hnd⟩
      · rw [List.length_take]
        exact min_le_left _ _
      · intro hcontra
        exact absurd hcontra hex
  · intro prev incoming hp hi
    have hup_nodup :
        ((Frontend.updatedRows prev incoming).map (fun x => x.alert_id)).Nodup := by
      rw [Frontend.updatedRows_ids]
      exact hp
    have hadd_nodup :
        ((Frontend.additionRows prev incoming).map (fun x => x.alert_id)).Nodup :=
      List.Nodup.sublist (List.Sublist.map _ (List.filter_sublist incoming)) hi
    have hdisj :
        ((Frontend.additionRows prev incoming).map (fun x => x.alert_id)).Disjoint
          ((Frontend.updatedRows prev incoming).map (fun x => x.alert_id)) := by
      intro y hy1 hy2
      obtain ⟨x, hxmem, rfl⟩ := List.mem_map.mp hy1
      have hxfilter := List.of_mem_filter hxmem
      simp only [Bool.not_eq_true'] at hxfilter
      have hcontains :
          ((Frontend.updatedRows prev incoming).map
              (fun x => x.alert_id)).contains x.alert_id = true :=
        List.elem_iff.mpr hy2
      rw [hxfilter] at hcontains
      exact Bool.noConfusion hcontains
    have hmerged_nodup :
        ((Frontend.additionRows prev incoming ++
            Frontend.updatedRows prev incoming).map (fun x => x.alert_id)).Nodup := by
      rw [List.map_append]
      exact List.Nodup.append hadd_nodup hup_nodup hdisj
    constructor
    · unfold Frontend.mergeRefetch Frontend.sortByCreatedDesc
      rw [List.map_take]
      apply List.Nodup.sublist (List.take_sublist _ _)
      exact ((List.mergeSort_perm _ _).map _).nodup_iff.mpr hmerged_nodup
    · unfold Frontend.mergeRefetch
      rw [List.length_take]
      exact min_le_left _ _

/-- Witness for C8: a realtime update and a refetch merge on concrete
one-element lists keep ids distinct and respect the cap. -/
theorem C8_explorer_merge_invariant_witness :
    ((Frontend.applyRealtime
        [{ alert_id := "ALERT-A", rule_name := "layering", score := some (1 / 2),
           severity := "high", anchored := true, created_at := 100,
           evidence_path := none, narrative := none }]
        { alert_id := "ALERT-B", rule_name := "wash_trade", score := some (3 / 4),
          severity := "high", anchored := false, created_at := 200,
          evidence_path := none, narrative := none }).map
        (fun x => x.alert_id)).Nodup ∧
      (Frontend.mergeRefetch
          [{ alert_id := "ALERT-A", rule_name := "layering", score := some (1 / 2),
             severity := "high", anchored := true, created_at := 100,
             evidence_path := none, narrative := none }]
          [{ alert_id := "ALERT-B", rule_name := "wash_trade", score := some (3 / 4),
             severity := "high", anchored := false, created_at := 200,
             evidence_path := none, narrative := none }]).length ≤ 200 :=
  ⟨(C8_explorer_merge_invariant.1
      [{ alert_id := "ALERT-A", rule_name := "layering", score := some (1 / 2),
         severity := "high", anchored := true, created_at := 100,
         evidence_path := none, narrative := none }]
      { alert_id := "ALERT-B", rule_name := "wash_trade", score := some (3 / 4),
        severity := "high", anchored := false, created_at := 200,
        evidence_path := none, narrative := none } (by decide)).1,
    (C8_explorer_merge_invariant.2
      [{ alert_id := "ALERT-A", rule_name := "layering", score := some (1 / 2),
         severity := "high", anchored := true, created_at := 100,
         evidence_path := none, narrative := none }]
      [{ alert_id := "ALERT-B", rule_name := "wash_trade", score := some (3 / 4),
         severity := "high", anchored := false, created_at := 200,
         evidence_path := none, narrative := none }] (by decide) (by decide)).2⟩

/-- C9: an alert whose score is null is excluded from the AlertsExplorer
filtered result list, for every query, anchored-only setting and minimum
score (including zero), and likewise from the timeline chart data set. -/
theorem C9_null_score_excluded :
    ∀ (alerts : List Frontend.Alert) (query : String) (anchoredOnly : Bool)
      (minScore : ℚ) (a : Frontend.Alert),
      a.score = none →
      a ∉ Frontend.filteredAlerts alerts query anchoredOnly minScore ∧
        a ∉ Frontend.timelineValidAlerts alerts := by
  intro alerts query anchoredOnly minScore a hscore
  constructor
  · intro hmem
    simp only [Frontend.filteredAlerts, Frontend.sortByCreatedDesc] at hmem
    have hmem' := (List.mergeSort_perm _ _).mem_iff.mp hmem
    have h3 := List.of_mem_filter (List.mem_of_mem_filter hmem')
    rw [hscore] at h3
    simp at h3
  · intro hmem
    have h := List.of_mem_filter hmem
    rw [hscore] at h
    simp at h

/-- Witness for C9: a concrete alert with a null score is excluded even with
minimum score zero and empty query. -/
theorem C9_null_score_excluded_witness :
    { alert_id := "ALERT-N", rule_name := "layering", score := none,
      severity := "low", anchored := true, created_at := 100,
      evidence_path := none, narrative := none : Frontend.Alert } ∉
        Frontend.filteredAlerts
          [{ alert_id := "ALERT-N", rule_name := "layering", score := none,
             severity := "low", anchored := true, created_at := 100,
             evidence_path := none, narrative := none }] "" false 0 ∧
      { alert_id := "ALERT-N", rule_name := "layering", score := none,
        severity := "low", anchored := true, created_at := 100,
        evidence_path := none, narrative := none : Frontend.Alert } ∉
        Frontend.timelineValidAlerts
          [{ alert_id := "ALERT-N", rule_name := "layering", score := none,
             severity := "low", anchored := true, created_at := 100,
             evidence_path := none, narrative := none }] :=
  C9_null_score_excluded
    [{ alert_id := "ALERT-N", rule_name := "layering", score := none,
       severity := "low", anchored := true, created_at := 100,
       evidence_path := none, narrative := none }] "" false 0
    { alert_id := "ALERT-N", rule_name := "layering", score := none,
      severity := "low", anchored := true, created_at := 100,
      evidence_path := none, narrative := none } rfl

theorem Frontend.pages_flatten (s : Nat) :
    ∀ (n : Nat) (l : List Frontend.MockAlert),
      ((List.range n).map (fun k => (l.drop (k * s)).take s)).flatten =
        l.take (n * s) := by
  intro n
  induction n with
  | zero => intro l; simp
  | succ m ih =>
    intro l
    rw [List.range_succ, List.map_append, List.flatten_append]
    simp only [List.map_cons, List.map_nil, List.flatten_cons, List.flatten_nil,
      List.append_nil]
    rw [ih l, Nat.succ_mul, List.take_add]

/-- C10: getDemoAlerts returns total equal to the demo store length and items
equal to the store slice from (page - 1) * pageSize of length at most
pageSize; concatenating the items of enough consecutive pages reconstructs
the whole store. -/
theorem C10_getDemoAlerts_pagination :
    ∀ (demoAlerts : List Frontend.MockAlert) (page pageSize : Nat),
      1 ≤ page →
      (Frontend.getDemoAlerts demoAlerts page pageSize).total = demoAlerts.length ∧
        (Frontend.getDemoAlerts demoAlerts page pageSize).items =
          (demoAlerts.drop ((page - 1) * pageSize)).take pageSize ∧
        (Frontend.getDemoAlerts demoAlerts page pageSize).items.length ≤ pageSize ∧
        (∀ n : Nat, demoAlerts.length ≤ n * pageSize →
          ((List.range n).map
              (fun k =>
                (Frontend.getDemoAlerts demoAlerts (k + 1) pageSize).items)).flatten =
            demoAlerts) := by
  intro demoAlerts page pageSize hpage
  refine ⟨rfl, rfl, ?_, ?_⟩
  · show ((demoAlerts.drop ((page - 1) * pageSize)).take pageSize).length ≤ pageSize
    rw [List.length_take]
    exact min_le_left _ _
  · intro n hn
    have hitems : ∀ k ∈ List.range n,
        (Frontend.getDemoAlerts demoAlerts (k + 1) pageSize).items =
          (demoAlerts.drop (k * pageSize)).take pageSize := by
      intro k _
      simp [Frontend.getDemoAlerts]
    rw [List.map_congr_left hitems, Frontend.pages_flatten pageSize n demoAlerts]
    exact List.take_of_length_le hn

/-- Witness for C10: a concrete three-alert store paged with page size 2. -/
theorem C10_getDemoAlerts_pagination_witness :
    (Frontend.getDemoAlerts
        [{ alert_id := "A1", rule_name := "layering", score := 1 / 2,
           severity := "high", anchored := true, created_at := "t1",
           narrative := none, evidence_path := none },
         { alert_id := "A2", rule_name := "wash_trade", score := 3 / 4,
           severity := "high", anchored := false, created_at := "t2",
           narrative := none, evidence_path := none },
         { alert_id := "A3", rule_name := "spoofing", score := 1 / 4,
           severity := "low", anchored := false, created_at := "t3",
           narrative := none, evidence_path := none }] 2 2).total =
      (([{ alert_id := "A1", rule_name := "layering", score := 1 / 2,
           severity := "high", anchored := true, created_at := "t1",
           narrative := none, evidence_path := none },
         { alert_id := "A2", rule_name := "wash_trade", score := 3 / 4,
           severity := "high", anchored := false, created_at := "t2",
           narrative := none, evidence_path := none },
         { alert_id := "A3", rule_name := "spoofing", score := 1 / 4,
           severity := "low", anchored := false, created_at := "t3",
           narrative := none, evidence_path := none }] : List Frontend.MockAlert)).length ∧
      ((List.range 2).map
          (fun k =>
            (Frontend.getDemoAlerts
              [{ alert_id := "A1", rule_name := "layering", score := 1 / 2,
                 severity := "high", anchored := true, created_at := "t1",
                 narrative := none, evidence_path := none },
               { alert_id := "A2", rule_name := "wash_trade", score := 3 / 4,
                 severity := "high", anchored := false, created_at := "t2",
                 narrative := none, evidence_path := none },
               { alert_id := "A3", rule_name := "spoofing", score := 1 / 4,
                 severity := "low", anchored := false, created_at := "t3",
                 narrative := none, evidence_path := none }] (k + 1) 2).items)).flatten =
        [{ alert_id := "A1", rule_name := "layering", score := 1 / 2,
           severity := "high", anchored := true, created_at := "t1",
           narrative := none, evidence_path := none },
         { alert_id := "A2", rule_name := "wash_trade", score := 3 / 4,
           severity := "high", anchored := false, created_at := "t2",
           narrative := none, evidence_path := none },
         { alert_id := "A3", rule_name := "spoofing", score := 1 / 4,
           severity := "low", anchored := false, created_at := "t3",
           narrative := none, evidence_path := none }] :=
  ⟨(C10_getDemoAlerts_pagination
      [{ alert_id := "A1", rule_name := "layering", score := 1 / 2,
         severity := "high", anchored := true, created_at := "t1",
         narrative := none, evidence_path := none },
       { alert_id := "A2", rule_name := "wash_trade", score := 3 / 4,
         severity := "high", anchored := false, created_at := "t2",
         narrative := none, evidence_path := none },
       { alert_id := "A3", rule_name := "spoofing", score := 1 / 4,
         severity := "low", anchored := false, created_at := "t3",
         narrative := none, evidence_path := none }] 2 2 (by decide)).1,
    (C10_getDemoAlerts_pagination
      [{ alert_id := "A1", rule_name := "layering", score := 1 / 2,
         severity := "high", anchored := true, created_at := "t1",
         narrative := none, evidence_path := none },
       { alert_id := "A2", rule_name := "wash_trade", score := 3 / 4,
         severity := "high", anchored := false, created_at := "t2",
         narrative := none, evidence_path := none },
       { alert_id := "A3", rule_name := "spoofing", score := 1 / 4,
         severity := "low", anchored := false, created_at := "t3",
         narrative := none, evidence_path := none }] 2 2 (by decide)).2.2.2 2
      (by decide)⟩

end IntegrityPlay
